import Mathlib

/-!
# Hotel Search Platform — formal model of the aggregation pipeline

A shallow embedding of the hotel search aggregation pipeline:
fuzzy cross-provider matching (`findBestBookingMatch`, `calculateMatchScore`,
`calculateStringSimilarity`, `calculateDistance`), batched enrichment with
partial-failure tolerance (`enrichHotelsWithPricing`), result sorting and
metadata (`searchHotels`), the retry/backoff discipline of the external API
clients (`makeBookingAPIRequest`, `callGoogleGeocodingAPI`) and the metrics
health derivation (`getAPIHealthStatusOf`).

JavaScript numbers are modelled as `ℚ` for all data fields; the Haversine
computation, which uses transcendental functions, is modelled over `ℝ`.
A JavaScript expression that produces `NaN` (such as `0/0` in the name
similarity of two empty strings) is modelled as `Option.none`; an absent
(`undefined`) input is likewise `Option.none`.
-/

namespace HotelSearch

/-! ## String similarity (`calculateStringSimilarity`) -/

/-- Levenshtein distance, the recurrence computed by the DP table of
`calculateStringSimilarity`: cost 0 on equal characters, otherwise 1 plus
the minimum over substitute / delete / insert. -/
def lev : List Char → List Char → ℕ
  | [], t => t.length
  | s, [] => s.length
  | a :: s, b :: t =>
      if a = b then lev s t
      else 1 + min (lev s t) (min (lev (a :: s) t) (lev s (b :: t)))
termination_by s t => s.length + t.length
decreasing_by all_goals (simp only [List.length_cons]; omega)

/-- `calculateStringSimilarity(str1, str2) = 1 - dp[m][n] / max(m, n)`.
When both strings are empty, the JavaScript source divides `0 / 0`,
yielding `NaN` (so the similarity is not a number); this is modelled as
`none`. -/
def calculateStringSimilarity (str1 str2 : String) : Option ℚ :=
  let m := str1.length
  let n := str2.length
  if max m n = 0 then none
  else some (1 - (lev str1.data str2.data : ℚ) / (max m n : ℚ))

lemma lev_nil_right (s : List Char) : lev s [] = s.length := by
  cases s <;> simp [lev]

lemma lev_self (s : List Char) : lev s s = 0 := by
  induction s with
  | nil => simp [lev]
  | cons a s ih => simp [lev, ih]

lemma lev_symm (s t : List Char) : lev s t = lev t s := by
  induction s, t using lev.induct with
  | case1 t => simp [lev, lev_nil_right]
  | case2 s h => simp [lev, lev_nil_right]
  | case3 s b t ih => simp [lev, ih]
  | case4 a s b t h ih1 ih2 ih3 =>
      have h2 : ¬ b = a := fun hb => h hb.symm
      rw [lev, lev, if_neg h, if_neg h2, ih1, ih2, ih3]
      omega

/-! ## Geometry (`calculateDistance`) -/

open Real in
/-- JavaScript `Math.atan2(y, x)`, defined piecewise as in the IEEE
specification (restricted to non-NaN inputs). -/
noncomputable def atan2 (y x : ℝ) : ℝ :=
  if 0 < x then Real.arctan (y / x)
  else if x < 0 ∧ 0 ≤ y then Real.arctan (y / x) + π
  else if x < 0 ∧ y < 0 then Real.arctan (y / x) - π
  else if x = 0 ∧ 0 < y then π / 2
  else if x = 0 ∧ y < 0 then -(π / 2)
  else 0

/-- JavaScript `Math.round`: round half towards positive infinity. -/
noncomputable def jsRound (x : ℝ) : ℝ := (⌊x + 1 / 2⌋ : ℤ)

/-- `calculateDistance(lat1, lon1, lat2, lon2)`: Haversine distance in
metres on the mean earth radius `R = 6371e3`, rounded with `Math.round`. -/
noncomputable def calculateDistance (lat1 lon1 lat2 lon2 : ℚ) : ℝ :=
  let R : ℝ := 6371e3
  let phi1 : ℝ := (lat1 : ℝ) * Real.pi / 180
  let phi2 : ℝ := (lat2 : ℝ) * Real.pi / 180
  let dphi : ℝ := ((lat2 : ℝ) - (lat1 : ℝ)) * Real.pi / 180
  let dlam : ℝ := ((lon2 : ℝ) - (lon1 : ℝ)) * Real.pi / 180
  let a := Real.sin (dphi / 2) * Real.sin (dphi / 2) +
      Real.cos phi1 * Real.cos phi2 * (Real.sin (dlam / 2) * Real.sin (dlam / 2))
  let c := 2 * atan2 (Real.sqrt a) (Real.sqrt (1 - a))
  jsRound (R * c)

/-! ## The data model

`Place` is a Google Places API result element (the fields the pipeline
reads); `GHotel` is the transformed discovery record built in
`searchHotels`; `BHotel` is a pricing record returned by the Booking.com
client (`searchHotelsWithPricing`); `MatchedHotel` is the merged record
emitted by `enrichHotelsWithPricing`. -/

structure Place where
  place_id : String
  name : String
  vicinity : String
  /-- `place.rating` may be absent; `searchHotels` reads `place.rating || 0`. -/
  rating : Option ℚ
  lat : ℚ
  lng : ℚ

structure GHotel where
  id : String
  name : String
  address : String
  rating : ℚ
  latitude : ℚ
  longitude : ℚ

/-- The transformation of one Google Places result in `searchHotels`. -/
def placeToHotel (p : Place) : GHotel :=
  { id := p.place_id, name := p.name, address := p.vicinity,
    rating := p.rating.getD 0, latitude := p.lat, longitude := p.lng }

structure HotelPrice where
  amount : ℚ
  currency : String
deriving DecidableEq

structure BHotel where
  id : String
  name : String
  rating : ℚ
  latitude : ℚ
  longitude : ℚ
  price : HotelPrice
  bookingUrl : String

structure MatchedHotel where
  id : String
  name : String
  address : String
  rating : ℚ
  latitude : ℚ
  longitude : ℚ
  available : Bool
  price : Option HotelPrice
  bookingId : Option String
  bookingUrl : Option String
  /-- The soft error tag attached to members of a failed pricing batch. -/
  error : Option String
deriving DecidableEq

/-! ## The match engine (`findBestBookingMatch`, `calculateMatchScore`) -/

/-- `calculateMatchScore(googleHotel, bookingHotel)`:
`nameSimilarity * 0.5 + distanceScore * 0.3 + ratingSimilarity * 0.2`.
The score is `NaN` (modelled `none`) exactly when the name similarity is
`NaN`, i.e. when both lowercased names are empty; `NaN` propagates through
the additions. The rating term tests JavaScript truthiness of both
ratings (`googleHotel.rating && bookingHotel.rating`), i.e. nonzero. -/
noncomputable def calculateMatchScore (g : GHotel) (b : BHotel) : Option ℝ :=
  (calculateStringSimilarity g.name.toLower b.name.toLower).map fun (nameSim : ℚ) =>
    (nameSim : ℝ) * 0.5 +
    max 0 (1 - calculateDistance g.latitude g.longitude b.latitude b.longitude / 500) * 0.3 +
    (if g.rating ≠ 0 ∧ b.rating ≠ 0
      then (1 - |(g.rating : ℝ) - (b.rating : ℝ)| / 5) * 0.2 else 0)

/-- The first maximal-score element of a list of scored candidates.
This is what `matches.sort((a, b) => b.score - a.score)` followed by
`matches[0]` produces: `Array.prototype.sort` is stable, so index 0 holds
the first element attaining the maximal score. -/
noncomputable def pickFirstMax : List (BHotel × ℝ) → Option (BHotel × ℝ)
  | [] => none
  | x :: xs => some (xs.foldl (fun best y => if best.2 < y.2 then y else best) x)

/-- `findBestBookingMatch(googleHotel, bookingHotels)`: `null` on an empty
candidate list; otherwise the first exact lowercased-name match if any;
otherwise the best-scoring candidate when its score exceeds `0.7`, else
`null`. The `getD 0` fills the `NaN` score case, which cannot occur in
this branch: both names empty would have been an exact match. -/
noncomputable def findBestBookingMatch (g : GHotel) (ps : List BHotel) : Option BHotel :=
  if ps.isEmpty then none
  else match ps.find? (fun b => b.name.toLower == g.name.toLower) with
    | some b => some b
    | none =>
      match pickFirstMax (ps.map fun b => (b, (calculateMatchScore g b).getD 0)) with
      | some m => if (0.7 : ℝ) < m.2 then some m.1 else none
      | none => none

/-- The weighted score exactly as the specification words it:
`0.5 × nameSimilarity + 0.3 × distanceScore + 0.2 × ratingSimilarity`,
with `distanceScore = max(0, 1 − haversineMeters/500)` and
`ratingSimilarity = 1 − |ratingA − ratingB|/5` when both ratings are
nonzero, else `0`. Stated for comparison against `calculateMatchScore`. -/
noncomputable def specScore (g : GHotel) (b : BHotel) : ℝ :=
  let s := g.name.toLower.data
  let t := b.name.toLower.data
  let nameSimilarity : ℝ := 1 - (lev s t : ℝ) / (max s.length t.length : ℝ)
  let distanceScore : ℝ :=
    max 0 (1 - calculateDistance g.latitude g.longitude b.latitude b.longitude / 500)
  let ratingSimilarity : ℝ :=
    if g.rating ≠ 0 ∧ b.rating ≠ 0 then 1 - |(g.rating : ℝ) - (b.rating : ℝ)| / 5 else 0
  0.5 * nameSimilarity + 0.3 * distanceScore + 0.2 * ratingSimilarity

/-! ## Enrichment (`enrichHotelsWithPricing`)

The pricing provider is abstracted as `fetch : ℕ → Except String (List
BHotel)`: the result (or thrown error) of `searchBookingHotels` for the
batch whose slice starts at the given index — the call's arguments
(`batch[0]` coordinates, dates, guests) are fixed per batch, so a batch is
identified by its start index `i` exactly as in the source's loop.
The cache is abstracted as `cacheGet : String → Option (List
MatchedHotel)`; cache writes performed by the run are collected in the
result so that claims about them can be stated. -/

/-- The merged record pushed for a matched Google hotel. -/
def enrichedOf (g : GHotel) (bm : BHotel) : MatchedHotel :=
  { id := g.id, name := g.name, address := g.address, rating := g.rating,
    latitude := g.latitude, longitude := g.longitude,
    available := true, price := some bm.price, bookingId := some bm.id,
    bookingUrl := some bm.bookingUrl, error := none }

/-- The record pushed when no Booking.com match was found. -/
def unmatchedOf (g : GHotel) : MatchedHotel :=
  { id := g.id, name := g.name, address := g.address, rating := g.rating,
    latitude := g.latitude, longitude := g.longitude,
    available := false, price := none, bookingId := none,
    bookingUrl := none, error := none }

/-- The record pushed for every member of a batch whose pricing lookup
threw. -/
def failedOf (g : GHotel) : MatchedHotel :=
  { id := g.id, name := g.name, address := g.address, rating := g.rating,
    latitude := g.latitude, longitude := g.longitude,
    available := false, price := none, bookingId := none,
    bookingUrl := none, error := some "Failed to fetch pricing" }

/-- One iteration of the batch loop body: on a successful pricing lookup,
match every hotel of the batch; on a thrown lookup, emit every member with
`available = false`, `price = null` and the soft error tag. -/
noncomputable def processBatch (batch : List GHotel)
    (res : Except String (List BHotel)) : List MatchedHotel :=
  match res with
  | .ok bookingResults =>
      batch.map fun g =>
        match findBestBookingMatch g bookingResults with
        | some bm => enrichedOf g bm
        | none => unmatchedOf g
  | .error _ => batch.map failedOf

/-- The batch loop `for (let i = 0; i < hotels.length; i += BATCH_SIZE)`
with `BATCH_SIZE = 10`. Returns the accumulated enriched list together
with the start indices of the batches that were fetched. -/
noncomputable def enrichBatches (fetch : ℕ → Except String (List BHotel)) :
    List GHotel → ℕ → List MatchedHotel × List ℕ
  | [], _ => ([], [])
  | h :: hs, i =>
      let batch := (h :: hs).take 10
      let r := enrichBatches fetch ((h :: hs).drop 10) (i + 10)
      (processBatch batch (fetch i) ++ r.1, i :: r.2)
termination_by hs _ => hs.length
decreasing_by simp [List.length_cons, List.length_drop]; omega

/-- The cache key built by `enrichHotelsWithPricing`:
the discovery ids joined by a comma in their incoming order. -/
def enrichCacheKey (checkIn checkOut : String) (guests : ℤ) (hotels : List GHotel) : String :=
  "hotel-pricing:" ++ checkIn ++ ":" ++ checkOut ++ ":" ++ toString guests ++ ":" ++
    String.intercalate "," (hotels.map (fun h => h.id))

/-- The cache key as the specification words it, with the discovery ids
sorted. Stated for comparison against `enrichCacheKey`. -/
def specCacheKeySorted (checkIn checkOut : String) (guests : ℤ) (hotels : List GHotel) : String :=
  "hotel-pricing:" ++ checkIn ++ ":" ++ checkOut ++ ":" ++ toString guests ++ ":" ++
    String.intercalate "," ((hotels.map (fun h => h.id)).insertionSort (fun a b => a ≤ b))

structure EnrichRun where
  result : List MatchedHotel
  /-- Start indices of the batches for which the pricing provider was
  called. -/
  fetchCalls : List ℕ
  /-- `(key, value, ttlSeconds)` triples written to the cache. -/
  cacheWrites : List (String × List MatchedHotel × ℕ)
deriving DecidableEq

/-- `enrichHotelsWithPricing(hotels, {checkIn, checkOut, guests})`:
cache lookup first (returning the cached list untouched on a hit), else
the batch loop followed by a cache write of the merged list with TTL
1800 seconds — unconditionally, also when batches failed. -/
noncomputable def enrichHotelsWithPricing (hotels : List GHotel)
    (checkIn checkOut : String) (guests : ℤ)
    (cacheGet : String → Option (List MatchedHotel))
    (fetch : ℕ → Except String (List BHotel)) : EnrichRun :=
  let cacheKey := enrichCacheKey checkIn checkOut guests hotels
  match cacheGet cacheKey with
  | some cached => { result := cached, fetchCalls := [], cacheWrites := [] }
  | none =>
      let r := enrichBatches fetch hotels 0
      { result := r.1, fetchCalls := r.2, cacheWrites := [(cacheKey, r.1, 1800)] }

/-! ## Result sorting and `searchHotels` -/

/-- JavaScript truthiness of `h.price?.amount`: the optional chain is
`undefined` (falsy) without a price, and an amount of `0` is falsy. -/
def priceAmountTruthy (h : MatchedHotel) : Bool :=
  match h.price with
  | some p => p.amount != 0
  | none => false

/-- `h.price?.amount` where it is read as a number (both sides truthy). -/
def priceAmountOf (h : MatchedHotel) : ℚ :=
  match h.price with
  | some p => p.amount
  | none => 0

/-- The sort comparator of `searchHotels`: availability first, then
ascending price when both amounts are truthy, then priced before
unpriced, then rating descending. -/
def hotelComparator (a b : MatchedHotel) : ℚ :=
  if a.available ≠ b.available then (if a.available then -1 else 1)
  else if priceAmountTruthy a ∧ priceAmountTruthy b then priceAmountOf a - priceAmountOf b
  else if priceAmountTruthy a then -1
  else if priceAmountTruthy b then 1
  else b.rating - a.rating

/-- The comparator as a "may `a` come before `b`" relation:
`comparator(a, b) <= 0`. -/
def hotelLE (a b : MatchedHotel) : Bool := hotelComparator a b ≤ 0

/-- `enrichedHotels.sort(comparator)`: a stable sort by the comparator. -/
def sortHotels (l : List MatchedHotel) : List MatchedHotel :=
  l.mergeSort hotelLE

structure SearchMetadata where
  total : ℕ
  available : ℕ
  unavailable : ℕ
  withPricing : ℕ
deriving DecidableEq

structure SearchResult where
  hotels : List MatchedHotel
  metadata : SearchMetadata
deriving DecidableEq

/-- The errors `searchHotels` can throw. `Error(...)` objects thrown by
input validation are distinguished from `APIError(message, status,
provider)` thrown on Google Places failures. -/
inductive SearchError
  | invalidCoordinates
  | datesRequired
  | invalidGuestCount
  | apiError (message : String) (status : ℕ) (provider : String)
deriving DecidableEq

/-- Truthiness of a coordinate argument: `!latitude || isNaN(latitude)`
rejects an absent or `NaN` value (modelled `none`) and the falsy `0`. -/
def jsTruthyNum (x : Option ℚ) : Bool :=
  match x with
  | none => false
  | some q => q != 0

/-- Truthiness of a date argument: absent (`none`) and `""` are falsy. -/
def jsTruthyStr (s : Option String) : Bool :=
  match s with
  | none => false
  | some v => v != ""

/-- `parseInt(guests) || 2`: the guests argument is modelled by its
`parseInt` image (`none` for `NaN`); `NaN` and `0` are falsy, so both
fall back to `2`. -/
def jsGuestCount (guests : Option ℤ) : ℤ :=
  match guests with
  | none => 2
  | some n => if n = 0 then 2 else n

/-- `searchHotels({latitude, longitude, checkIn, checkOut, guests})`.
The Google Places call is abstracted as `googleResp` (its transformed
`data.results` on success, or the failed HTTP/API status on error);
the cache and the Booking.com client are abstracted as in
`enrichHotelsWithPricing`. -/
noncomputable def searchHotels (latitude longitude : Option ℚ)
    (checkIn checkOut : Option String) (guests : Option ℤ)
    (googleResp : Except (String × ℕ) (List Place))
    (cacheGet : String → Option (List MatchedHotel))
    (fetch : ℕ → Except String (List BHotel)) : Except SearchError SearchResult :=
  if ¬ jsTruthyNum latitude ∨ ¬ jsTruthyNum longitude then .error .invalidCoordinates
  else if ¬ jsTruthyStr checkIn ∨ ¬ jsTruthyStr checkOut then .error .datesRequired
  else
    let guestCount := jsGuestCount guests
    if guestCount < 1 ∨ guestCount > 10 then .error .invalidGuestCount
    else match googleResp with
      | .error e => .error (.apiError e.1 e.2 "google")
      | .ok places =>
          let googleHotels := places.map placeToHotel
          let er := enrichHotelsWithPricing googleHotels (checkIn.getD "") (checkOut.getD "")
            guestCount cacheGet fetch
          let sortedHotels := sortHotels er.result
          .ok {
            hotels := sortedHotels,
            metadata := {
              total := sortedHotels.length,
              available := (sortedHotels.filter fun h => h.available).length,
              unavailable := (sortedHotels.filter fun h => ¬ h.available).length,
              withPricing := (sortedHotels.filter fun h =>
                match h.price with
                | some p => 0 < p.amount
                | none => false).length } }

/-- The dedup key named by the specification:
`lowercase(name) + "_" + lowercase(address)`. -/
def dedupKey (h : MatchedHotel) : String :=
  h.name.toLower ++ "_" ++ h.address.toLower

/-! ## Retry and backoff (`makeBookingAPIRequest`, `callGoogleGeocodingAPI`)

External calls are abstracted as a function from the attempt counter to
that attempt's outcome. A run records the result (or rethrown error), the
list of backoff waits in milliseconds, and the number of fetch
invocations. -/

structure BookingAPIError where
  message : String
  status : ℕ
  code : String
deriving DecidableEq

structure RetryRun (ε α : Type) where
  result : Except ε α
  /-- Waits performed (ms), in order. -/
  waits : List ℕ
  /-- Number of fetch invocations. -/
  calls : ℕ

/-- Outcome of one `fetch` of the Booking.com API: a parsed 2xx body, a
non-ok response carrying the body's `message`/`code`, or a thrown
connection error. -/
inductive FetchOutcome
  | ok (data : String)
  | httpError (status : ℕ) (message : String) (code : String)
  | connectionError
deriving DecidableEq

/-- `makeBookingAPIRequest(endpoint, body, retryCount)` with
`MAX_RETRIES = 3`, `RETRY_DELAY = 1000`: a 429 response with
`retryCount < 3` waits `1000 * 2^retryCount` ms and recurses; any other
non-ok response throws a `BookingAPIError` immediately; a connection
failure throws a `BookingAPIError(500, 'CONNECTION_ERROR')` immediately. -/
def makeBookingAPIRequest (op : ℕ → FetchOutcome) (retryCount : ℕ) :
    RetryRun BookingAPIError String :=
  match op retryCount with
  | .ok data => { result := .ok data, waits := [], calls := 1 }
  | .httpError status message code =>
      if h : status = 429 ∧ retryCount < 3 then
        let r := makeBookingAPIRequest op (retryCount + 1)
        { result := r.result, waits := 1000 * 2 ^ retryCount :: r.waits, calls := r.calls + 1 }
      else { result := .error ⟨message, status, code⟩, waits := [], calls := 1 }
  | .connectionError =>
      { result := .error ⟨"Failed to connect to Booking.com API", 500, "CONNECTION_ERROR"⟩,
        waits := [], calls := 1 }
termination_by 3 - retryCount
decreasing_by omega

/-- Outcome of one geocoding fetch attempt: an HTTP error status, a
thrown network error, or a parsed body classified by its `data.status`. -/
inductive GeoOutcome
  | ok (lat lng : ℚ)
  | zeroResults
  | overQueryLimit
  | requestDenied
  | invalidRequest
  | otherStatus (s : String)
  | httpNotOk (status : ℕ)
  | network
deriving DecidableEq

/-- A `GeocodingError{message, status}`, or a non-`GeocodingError`
exception thrown by `fetch` itself. -/
inductive GeoError
  | geocodingError (message : String) (status : ℕ)
  | fetchFailure
deriving DecidableEq

/-- The retry loop of `callGoogleGeocodingAPI` (`maxRetries = 3`,
attempts numbered from 1). A 429 response waits `2^attempt * 1000` ms and
continues without recording an error; every thrown `GeocodingError`
(other HTTP errors, `OVER_QUERY_LIMIT`, `REQUEST_DENIED`, ...) is
rethrown immediately by the catch block; a non-`GeocodingError` fetch
failure is recorded as the last error and retried after `2^attempt *
1000` ms, except on the final attempt. After the loop the recorded last
error, or a fallback `GeocodingError`, is thrown. -/
def geocodeAttempts (op : ℕ → GeoOutcome) (attempt : ℕ) (lastError : Option GeoError) :
    RetryRun GeoError (Option (ℚ × ℚ)) :=
  if 3 < attempt then
    { result := .error (lastError.getD
        (.geocodingError "Geocoding service unavailable after retries" 500)),
      waits := [], calls := 0 }
  else match op attempt with
    | .ok lat lng => { result := .ok (some (lat, lng)), waits := [], calls := 1 }
    | .zeroResults => { result := .ok none, waits := [], calls := 1 }
    | .overQueryLimit =>
        { result := .error (.geocodingError "Google Geocoding quota exceeded" 429),
          waits := [], calls := 1 }
    | .requestDenied =>
        { result := .error (.geocodingError "Google Geocoding API access denied" 403),
          waits := [], calls := 1 }
    | .invalidRequest =>
        { result := .error (.geocodingError "Invalid geocoding request" 400),
          waits := [], calls := 1 }
    | .otherStatus s =>
        { result := .error (.geocodingError ("Geocoding failed: " ++ s) 500),
          waits := [], calls := 1 }
    | .httpNotOk status =>
        if status = 429 then
          let r := geocodeAttempts op (attempt + 1) lastError
          { result := r.result, waits := 2 ^ attempt * 1000 :: r.waits, calls := r.calls + 1 }
        else
          { result := .error (.geocodingError
              ("Google Geocoding API HTTP " ++ toString status) status),
            waits := [], calls := 1 }
    | .network =>
        if attempt = 3 then { result := .error .fetchFailure, waits := [], calls := 1 }
        else
          let r := geocodeAttempts op (attempt + 1) (some .fetchFailure)
          { result := r.result, waits := 2 ^ attempt * 1000 :: r.waits, calls := r.calls + 1 }
termination_by 4 - attempt
decreasing_by all_goals omega

/-- `callGoogleGeocodingAPI(location)`, given per-attempt outcomes. -/
def callGoogleGeocodingAPI (op : ℕ → GeoOutcome) : RetryRun GeoError (Option (ℚ × ℚ)) :=
  geocodeAttempts op 1 none

/-! ## Metrics health (`getAPIHealthStatus`) -/

/-- The per-provider record stored in `apiMetrics`. The objects stored
there carry exactly `requests`, `errors`, `totalTime`, `lastError`,
`lastSuccess` — there is no `errorRate` property. -/
structure ProviderMetrics where
  requests : ℕ
  errors : ℕ
  totalTime : ℚ
deriving DecidableEq

/-- JavaScript `undefined > x` for a number `x`: always false. Reading
the absent `errorRate` property of a `ProviderMetrics` object yields
`undefined`, so both comparisons in `getAPIHealthStatus` evaluate to
false. -/
def jsUndefinedGtNum (_ : ℚ) : Bool := false

/-- The status derivation of `getAPIHealthStatus` for one provider entry,
with `recentTimes` the provider's cached response-time window. The two
branches reading `metrics.errorRate` compare `undefined` with a number
(the stored metric objects have no `errorRate` field). -/
def getAPIHealthStatusOf (metrics : ProviderMetrics) (recentTimes : List ℚ) : String :=
  let recentAverage : ℚ :=
    if 0 < recentTimes.length then recentTimes.sum / (recentTimes.length : ℚ) else 0
  if metrics.requests = 0 then "unknown"
  else if jsUndefinedGtNum 50 then "critical"
  else if jsUndefinedGtNum 20 || decide (10000 < recentAverage) then "degraded"
  else "healthy"

/-- The health derivation as the specification words it: `unknown` for 0
requests, `critical` for error rate above 50%, `degraded` for error rate
above 20% or recent average latency above 10s, else `healthy`. Stated for
comparison against `getAPIHealthStatusOf`. -/
def specHealthStatus (metrics : ProviderMetrics) (recentTimes : List ℚ) : String :=
  let errorRate : ℚ :=
    if metrics.requests = 0 then 0 else (metrics.errors : ℚ) / (metrics.requests : ℚ) * 100
  let recentAverage : ℚ :=
    if 0 < recentTimes.length then recentTimes.sum / (recentTimes.length : ℚ) else 0
  if metrics.requests = 0 then "unknown"
  else if 50 < errorRate then "critical"
  else if 20 < errorRate ∨ 10000 < recentAverage then "degraded"
  else "healthy"

/-! ## Helper lemmas -/

lemma string_length_eq_zero {s : String} (h : s.length = 0) : s = "" := by
  cases s with
  | mk data =>
      cases data with
      | nil => rfl
      | cons a l => simp [String.length] at h

lemma calculateStringSimilarity_comm (s t : String) :
    calculateStringSimilarity s t = calculateStringSimilarity t s := by
  simp only [calculateStringSimilarity, Nat.max_comm t.length s.length, lev_symm t.data s.data,
    max_comm ((t.length : ℚ)) ((s.length : ℚ))]

lemma calculateStringSimilarity_self {s : String} (h : s ≠ "") :
    calculateStringSimilarity s s = some 1 := by
  have hl : s.length ≠ 0 := fun h0 => h (string_length_eq_zero h0)
  simp [calculateStringSimilarity, hl, lev_self]

/-! ## C8 — name similarity: reflexivity and symmetry -/

/-- C8 counterexample: the claim asserts `nameSimilarity(s, s) = 1.0` for
all strings `s`, but on two empty strings the source computes
`1 - 0/0 = NaN` (modelled `none`), which is not `1.0`. -/
theorem C8_counterexample :
    calculateStringSimilarity "" "" ≠ some 1 ∧ calculateStringSimilarity "" "" = none := by
  constructor <;> decide

/-- C8 (amended): `calculateStringSimilarity` is symmetric in its two
arguments, and equals `1.0` on two copies of any non-empty string; on two
empty strings it is `NaN`. -/
theorem C8_name_similarity :
    (∀ s t : String, calculateStringSimilarity s t = calculateStringSimilarity t s) ∧
    (∀ s : String, s ≠ "" → calculateStringSimilarity s s = some 1) :=
  ⟨calculateStringSimilarity_comm, fun _ h => calculateStringSimilarity_self h⟩

/-- C8 witness: the amended theorem applied to the concrete strings
`"abc"`, `"b"`. -/
theorem C8_name_similarity_witness :
    calculateStringSimilarity "abc" "b" = calculateStringSimilarity "b" "abc" ∧
    ("abc" : String) ≠ "" ∧ calculateStringSimilarity "abc" "abc" = some 1 :=
  ⟨C8_name_similarity.1 "abc" "b", by decide, C8_name_similarity.2 "abc" (by decide)⟩

/-! ## C9 — Haversine distance: symmetry and vanishing on the diagonal -/

lemma atan2_zero_one : atan2 0 1 = 0 := by
  simp [atan2, Real.arctan_zero]

/-- C9: `calculateDistance` is symmetric in its two coordinate
arguments, and the distance from any coordinate to itself is `0`. -/
theorem C9_distance_symm_refl :
    (∀ lat1 lon1 lat2 lon2 : ℚ,
        calculateDistance lat1 lon1 lat2 lon2 = calculateDistance lat2 lon2 lat1 lon1) ∧
    (∀ lat lon : ℚ, calculateDistance lat lon lat lon = 0) := by
  constructor
  · intro lat1 lon1 lat2 lon2
    simp only [calculateDistance]
    rw [show ((lat1 : ℝ) - (lat2 : ℝ)) * Real.pi / 180 =
          -(((lat2 : ℝ) - (lat1 : ℝ)) * Real.pi / 180) from by ring,
        show ((lon1 : ℝ) - (lon2 : ℝ)) * Real.pi / 180 =
          -(((lon2 : ℝ) - (lon1 : ℝ)) * Real.pi / 180) from by ring]
    simp only [neg_div, Real.sin_neg, neg_mul_neg]
    rw [mul_comm (Real.cos ((lat2 : ℝ) * Real.pi / 180)) (Real.cos ((lat1 : ℝ) * Real.pi / 180))]
  · intro lat lon
    simp only [calculateDistance, sub_self, zero_mul, zero_div, Real.sin_zero, mul_zero,
      zero_add, add_zero, Real.sqrt_zero, sub_zero, Real.sqrt_one, atan2_zero_one]
    norm_num [jsRound]

/-! ## C6 — health status derivation -/

/-- C6: the claimed status derivation does not match the code. The
objects stored in `apiMetrics` carry no `errorRate` property, so
`metrics.errorRate > 50` and `metrics.errorRate > 20` compare `undefined`
with a number and are always false: a provider with a 100% error rate and
fast responses is reported `healthy`, the spec-worded derivation says
`critical`, and the code can never report `critical` at all. -/
theorem C6_health_status_bug :
    getAPIHealthStatusOf ⟨10, 10, 0⟩ [5] = "healthy" ∧
    specHealthStatus ⟨10, 10, 0⟩ [5] = "critical" ∧
    (∀ (m : ProviderMetrics) (rt : List ℚ), getAPIHealthStatusOf m rt ≠ "critical") := by
  refine ⟨by norm_num [getAPIHealthStatusOf, jsUndefinedGtNum],
    by norm_num [specHealthStatus], ?_⟩
  intro m rt
  simp only [getAPIHealthStatusOf, jsUndefinedGtNum, Bool.false_or, Bool.false_eq_true,
    if_false]
  split_ifs <;> decide

/-! ## C5 — retry/backoff discipline -/

lemma makeBooking_ok (op : ℕ → FetchOutcome) (r : ℕ) (d : String) (h : op r = .ok d) :
    makeBookingAPIRequest op r = { result := .ok d, waits := [], calls := 1 } := by
  rw [makeBookingAPIRequest.eq_def, h]

lemma makeBooking_429_step (op : ℕ → FetchOutcome) (r : ℕ) (m c : String)
    (h : op r = .httpError 429 m c) (hlt : r < 3) :
    makeBookingAPIRequest op r =
      { result := (makeBookingAPIRequest op (r + 1)).result,
        waits := 1000 * 2 ^ r :: (makeBookingAPIRequest op (r + 1)).waits,
        calls := (makeBookingAPIRequest op (r + 1)).calls + 1 } := by
  rw [makeBookingAPIRequest.eq_def, h]
  dsimp only
  rw [dif_pos ⟨rfl, hlt⟩]

lemma makeBooking_httpError_stop (op : ℕ → FetchOutcome) (r s : ℕ) (m c : String)
    (h : op r = .httpError s m c) (hno : ¬ (s = 429 ∧ r < 3)) :
    makeBookingAPIRequest op r = { result := .error ⟨m, s, c⟩, waits := [], calls := 1 } := by
  rw [makeBookingAPIRequest.eq_def, h]
  dsimp only
  rw [dif_neg hno]

lemma geocode_429_step (op : ℕ → GeoOutcome) (a : ℕ) (le : Option GeoError)
    (ha : a ≤ 3) (h : op a = .httpNotOk 429) :
    geocodeAttempts op a le =
      { result := (geocodeAttempts op (a + 1) le).result,
        waits := 2 ^ a * 1000 :: (geocodeAttempts op (a + 1) le).waits,
        calls := (geocodeAttempts op (a + 1) le).calls + 1 } := by
  rw [geocodeAttempts.eq_def, if_neg (by omega), h]
  simp

lemma geocode_http_stop (op : ℕ → GeoOutcome) (a s : ℕ) (le : Option GeoError)
    (ha : a ≤ 3) (hs : s ≠ 429) (h : op a = .httpNotOk s) :
    geocodeAttempts op a le =
      { result := .error (.geocodingError ("Google Geocoding API HTTP " ++ toString s) s),
        waits := [], calls := 1 } := by
  rw [geocodeAttempts.eq_def, if_neg (by omega), h]
  simp [hs]

lemma geocode_ok (op : ℕ → GeoOutcome) (a : ℕ) (le : Option GeoError) (lat lng : ℚ)
    (ha : a ≤ 3) (h : op a = .ok lat lng) :
    geocodeAttempts op a le = { result := .ok (some (lat, lng)), waits := [], calls := 1 } := by
  rw [geocodeAttempts.eq_def, if_neg (by omega), h]

lemma geocode_network_step (op : ℕ → GeoOutcome) (a : ℕ) (le : Option GeoError)
    (ha : a < 3) (h : op a = .network) :
    geocodeAttempts op a le =
      { result := (geocodeAttempts op (a + 1) (some .fetchFailure)).result,
        waits := 2 ^ a * 1000 :: (geocodeAttempts op (a + 1) (some .fetchFailure)).waits,
        calls := (geocodeAttempts op (a + 1) (some .fetchFailure)).calls + 1 } := by
  rw [geocodeAttempts.eq_def, if_neg (by omega), h]
  simp [show a ≠ 3 by omega]

lemma geocode_network_last (op : ℕ → GeoOutcome) (le : Option GeoError)
    (h : op 3 = .network) :
    geocodeAttempts op 3 le = { result := .error .fetchFailure, waits := [], calls := 1 } := by
  rw [geocodeAttempts.eq_def, if_neg (by omega), h]
  simp

/-- An operation that fails with HTTP 500 on every attempt. -/
def opHttp500 : ℕ → FetchOutcome := fun _ => .httpError 500 "server error" "SERVER_ERROR"

/-- C5 counterexample: the claim says any non-429 failure triggers a wait
of `1000ms × attempt` followed by a retry. But `makeBookingAPIRequest`
throws a non-429 HTTP failure immediately: against an operation that
always returns HTTP 500 it performs no wait and never retries (a single
fetch invocation). -/
theorem C5_counterexample :
    makeBookingAPIRequest opHttp500 0 =
      { result := .error ⟨"server error", 500, "SERVER_ERROR"⟩, waits := [], calls := 1 } ∧
    ¬ 2 ≤ (makeBookingAPIRequest opHttp500 0).calls := by
  have h := makeBooking_httpError_stop opHttp500 0 500 "server error" "SERVER_ERROR" rfl
    (by omega)
  exact ⟨h, by rw [h]; simp⟩

/-- C5 (amended): in `makeBookingAPIRequest` an HTTP 429 with retries
remaining waits `2^retryCount × 1000 ms` and retries, so 429-twice-then-
success yields the success result with waits 1000 ms and 2000 ms; any
other failure is thrown immediately with no wait and no retry; when 429
persists, the retries are exhausted and the last 429 error is thrown.
`callGoogleGeocodingAPI` likewise waits `2^attempt × 1000 ms` on 429 and
succeeds in the 429-twice-then-success scenario; it throws any
`GeocodingError` (e.g. a non-429 HTTP failure) immediately without
retrying; only non-`GeocodingError` fetch failures are retried, also
after `2^attempt × 1000 ms`, and once attempts are exhausted the last
such error is rethrown. -/
theorem C5_retry_behavior :
    (∀ (op : ℕ → FetchOutcome) (m1 c1 m2 c2 d : String),
        op 0 = .httpError 429 m1 c1 → op 1 = .httpError 429 m2 c2 → op 2 = .ok d →
        makeBookingAPIRequest op 0 = { result := .ok d, waits := [1000, 2000], calls := 3 }) ∧
    (∀ (op : ℕ → FetchOutcome) (s : ℕ) (m c : String), s ≠ 429 → op 0 = .httpError s m c →
        makeBookingAPIRequest op 0 =
          { result := .error ⟨m, s, c⟩, waits := [], calls := 1 }) ∧
    (∀ (op : ℕ → FetchOutcome) (ms cs : ℕ → String),
        (∀ i, op i = .httpError 429 (ms i) (cs i)) →
        makeBookingAPIRequest op 0 =
          { result := .error ⟨ms 3, 429, cs 3⟩, waits := [1000, 2000, 4000], calls := 4 }) ∧
    (∀ (op : ℕ → GeoOutcome) (lat lng : ℚ),
        op 1 = .httpNotOk 429 → op 2 = .httpNotOk 429 → op 3 = .ok lat lng →
        callGoogleGeocodingAPI op =
          { result := .ok (some (lat, lng)), waits := [2000, 4000], calls := 3 }) ∧
    (∀ (op : ℕ → GeoOutcome) (s : ℕ), s ≠ 429 → op 1 = .httpNotOk s →
        callGoogleGeocodingAPI op =
          { result := .error (.geocodingError ("Google Geocoding API HTTP " ++ toString s) s),
            waits := [], calls := 1 }) ∧
    (∀ op : ℕ → GeoOutcome, op 1 = .network → op 2 = .network → op 3 = .network →
        callGoogleGeocodingAPI op =
          { result := .error .fetchFailure, waits := [2000, 4000], calls := 3 }) := by
  refine ⟨?_, ?_, ?_, ?_, ?_, ?_⟩
  · intro op m1 c1 m2 c2 d h0 h1 h2
    rw [makeBooking_429_step op 0 m1 c1 h0 (by omega),
      makeBooking_429_step op 1 m2 c2 h1 (by omega), makeBooking_ok op 2 d h2]
    norm_num
  · intro op s m c hs h0
    exact makeBooking_httpError_stop op 0 s m c h0 (by omega)
  · intro op ms cs h
    rw [makeBooking_429_step op 0 (ms 0) (cs 0) (h 0) (by omega),
      makeBooking_429_step op 1 (ms 1) (cs 1) (h 1) (by omega),
      makeBooking_429_step op 2 (ms 2) (cs 2) (h 2) (by omega),
      makeBooking_httpError_stop op 3 429 (ms 3) (cs 3) (h 3) (by omega)]
    norm_num
  · intro op lat lng h1 h2 h3
    unfold callGoogleGeocodingAPI
    rw [geocode_429_step op 1 none (by omega) h1, geocode_429_step op 2 none (by omega) h2,
      geocode_ok op 3 none lat lng (by omega) h3]
    norm_num
  · intro op s hs h1
    exact geocode_http_stop op 1 s none (by omega) hs h1
  · intro op h1 h2 h3
    unfold callGoogleGeocodingAPI
    rw [geocode_network_step op 1 none (by omega) h1,
      geocode_network_step op 2 (some .fetchFailure) (by omega) h2,
      geocode_network_last op (some .fetchFailure) h3]
    norm_num

/-- The operation of the specification's scenario: HTTP 429 twice, then
success. -/
def op429TwiceThenOk : ℕ → FetchOutcome :=
  fun i => if i < 2 then .httpError 429 "Too many requests" "RATE_LIMIT" else .ok "payload"

/-- C5 witness: the amended theorem applied to the concrete
429-twice-then-success operation. -/
theorem C5_retry_behavior_witness :
    makeBookingAPIRequest op429TwiceThenOk 0 =
      { result := .ok "payload", waits := [1000, 2000], calls := 3 } :=
  C5_retry_behavior.1 op429TwiceThenOk "Too many requests" "RATE_LIMIT" "Too many requests"
    "RATE_LIMIT" "payload" rfl rfl rfl

/-! ## C10 — guest count validation -/

/-- C10: when the guests argument parses to `NaN` (absent or
non-numeric) or to `0`, `searchHotels` silently substitutes a guest count
of `2` — the whole run coincides with a run on `guests = 2` — and the
guest-count error is thrown exactly when the argument explicitly parses
to a nonzero integer outside `[1, 10]`. -/
theorem C10_guest_count_default :
    (∀ (lat lng : Option ℚ) (ci co : Option String) (resp : Except (String × ℕ) (List Place))
        (cg : String → Option (List MatchedHotel)) (f : ℕ → Except String (List BHotel)),
        searchHotels lat lng ci co none resp cg f =
          searchHotels lat lng ci co (some 2) resp cg f ∧
        searchHotels lat lng ci co (some 0) resp cg f =
          searchHotels lat lng ci co (some 2) resp cg f) ∧
    (∀ (lat lng : Option ℚ) (ci co : Option String) (gz : Option ℤ)
        (resp : Except (String × ℕ) (List Place)) (cg : String → Option (List MatchedHotel))
        (f : ℕ → Except String (List BHotel)),
        searchHotels lat lng ci co gz resp cg f = .error .invalidGuestCount ↔
          (jsTruthyNum lat = true ∧ jsTruthyNum lng = true ∧ jsTruthyStr ci = true ∧
            jsTruthyStr co = true ∧ ∃ n : ℤ, gz = some n ∧ n ≠ 0 ∧ (n < 1 ∨ 10 < n))) := by
  constructor
  · intro lat lng ci co resp cg f
    constructor <;> simp [searchHotels, jsGuestCount]
  · intro lat lng ci co gz resp cg f
    by_cases hlat : jsTruthyNum lat = true
    · by_cases hlng : jsTruthyNum lng = true
      · by_cases hci : jsTruthyStr ci = true
        · by_cases hco : jsTruthyStr co = true
          · simp only [searchHotels, hlat, hlng, hci, hco, not_true, or_self, if_false,
              true_and]
            rcases gz with _ | n
            · simp only [jsGuestCount]
              norm_num
              rcases resp with e | places <;> simp
            · simp only [jsGuestCount]
              by_cases hn : n = 0
              · simp only [hn, if_pos rfl]
                norm_num
                rcases resp with e | places <;> simp
              · rw [if_neg hn]
                by_cases hout : n < 1 ∨ 10 < n
                · simp only [if_pos hout]
                  simp [hn, hout]
                · simp only [if_neg hout]
                  rcases resp with e | places <;> simp <;> omega
          · simp [searchHotels, hlat, hlng, hci, hco]
        · simp [searchHotels, hlat, hlng, hci]
      · simp [searchHotels, hlat, hlng]
    · simp [searchHotels, hlat]

/-! ## C4 — pricing cache behaviour -/

/-- A concrete discovery record with id `"b"`. -/
def hotelB : GHotel :=
  { id := "b", name := "B Hotel", address := "1 B St", rating := 0, latitude := 0, longitude := 0 }

/-- A concrete discovery record with id `"a"`. -/
def hotelA : GHotel :=
  { id := "a", name := "A Hotel", address := "1 A St", rating := 0, latitude := 0, longitude := 0 }

/-- C4 counterexample: the claim says the discovery ids in the cache key
are sorted, but `enrichHotelsWithPricing` joins `hotels.map(h => h.id)`
in their incoming order without sorting: for the id order `b, a` the key
ends in `b,a`, not in the sorted `a,b`. -/
theorem C4_counterexample :
    enrichCacheKey "2024-01-01" "2024-01-02" 2 [hotelB, hotelA] =
      "hotel-pricing:2024-01-01:2024-01-02:2:b,a" ∧
    specCacheKeySorted "2024-01-01" "2024-01-02" 2 [hotelB, hotelA] =
      "hotel-pricing:2024-01-01:2024-01-02:2:a,b" ∧
    enrichCacheKey "2024-01-01" "2024-01-02" 2 [hotelB, hotelA] ≠
      specCacheKeySorted "2024-01-01" "2024-01-02" 2 [hotelB, hotelA] := by
  have h1 : enrichCacheKey "2024-01-01" "2024-01-02" 2 [hotelB, hotelA] =
      "hotel-pricing:2024-01-01:2024-01-02:2:b,a" := by decide
  have h2 : (([hotelB, hotelA].map fun h => h.id).insertionSort fun a b => a ≤ b) =
      ["a", "b"] := by
    simp [hotelB, hotelA, List.insertionSort, List.orderedInsert]
    decide
  have h3 : specCacheKeySorted "2024-01-01" "2024-01-02" 2 [hotelB, hotelA] =
      "hotel-pricing:2024-01-01:2024-01-02:2:a,b" := by
    rw [specCacheKeySorted, h2]
    decide
  refine ⟨h1, h3, ?_⟩
  rw [h1, h3]
  decide

/-- C4 (amended): the cache key joins the discovery ids in their
incoming (unsorted) order; on a cache hit the cached list is returned
with no provider call and no cache write; on a miss the merged list is
written back under the same key with TTL 1800 seconds, unconditionally —
also when batches failed, since the write does not depend on the fetch
outcomes. -/
theorem C4_cache_behavior :
    (∀ (checkIn checkOut : String) (guests : ℤ) (hotels : List GHotel),
        enrichCacheKey checkIn checkOut guests hotels =
          "hotel-pricing:" ++ checkIn ++ ":" ++ checkOut ++ ":" ++ toString guests ++ ":" ++
            String.intercalate "," (hotels.map fun h => h.id)) ∧
    (∀ (hotels : List GHotel) (ci co : String) (g : ℤ)
        (cg : String → Option (List MatchedHotel)) (f : ℕ → Except String (List BHotel))
        (v : List MatchedHotel), cg (enrichCacheKey ci co g hotels) = some v →
        enrichHotelsWithPricing hotels ci co g cg f =
          { result := v, fetchCalls := [], cacheWrites := [] }) ∧
    (∀ (hotels : List GHotel) (ci co : String) (g : ℤ)
        (cg : String → Option (List MatchedHotel)) (f : ℕ → Except String (List BHotel)),
        cg (enrichCacheKey ci co g hotels) = none →
        (enrichHotelsWithPricing hotels ci co g cg f).cacheWrites =
          [(enrichCacheKey ci co g hotels,
            (enrichHotelsWithPricing hotels ci co g cg f).result, 1800)]) := by
  refine ⟨fun _ _ _ _ => rfl, ?_, ?_⟩
  · intro hotels ci co g cg f v hhit
    simp [enrichHotelsWithPricing, hhit]
  · intro hotels ci co g cg f hmiss
    simp [enrichHotelsWithPricing, hmiss]

/-- C4 witness: the amended theorem applied to a concrete cache hit and
a concrete cache miss. -/
theorem C4_cache_behavior_witness :
    ((fun _ => some ([] : List MatchedHotel)) (enrichCacheKey "ci" "co" 2 [hotelB]) = some [] ∧
      enrichHotelsWithPricing [hotelB] "ci" "co" 2 (fun _ => some [])
          (fun _ => .error "boom") =
        { result := [], fetchCalls := [], cacheWrites := [] }) ∧
    ((fun _ => (none : Option (List MatchedHotel))) (enrichCacheKey "ci" "co" 2 [hotelB]) =
        none ∧
      (enrichHotelsWithPricing [hotelB] "ci" "co" 2 (fun _ => none)
          (fun _ => .error "boom")).cacheWrites =
        [(enrichCacheKey "ci" "co" 2 [hotelB],
          (enrichHotelsWithPricing [hotelB] "ci" "co" 2 (fun _ => none)
            (fun _ => .error "boom")).result, 1800)]) :=
  ⟨⟨rfl, C4_cache_behavior.2.1 [hotelB] "ci" "co" 2 _ _ [] rfl⟩,
    ⟨rfl, C4_cache_behavior.2.2 [hotelB] "ci" "co" 2 _ _ rfl⟩⟩

/-! ## C2 — partial-failure tolerance of the batch loop -/

/-- What the loop body emits for one hotel, as a function of its batch's
pricing-lookup outcome. -/
noncomputable def expectedEnrichment (g : GHotel) (res : Except String (List BHotel)) :
    MatchedHotel :=
  match res with
  | .ok bookingResults =>
      match findBestBookingMatch g bookingResults with
      | some bm => enrichedOf g bm
      | none => unmatchedOf g
  | .error _ => failedOf g

lemma processBatch_eq_map (batch : List GHotel) (res : Except String (List BHotel)) :
    processBatch batch res = batch.map fun g => expectedEnrichment g res := by
  cases res <;> rfl

lemma enrichBatches_fst_length (fetch : ℕ → Except String (List BHotel)) :
    ∀ (hs : List GHotel) (i : ℕ), (enrichBatches fetch hs i).1.length = hs.length := by
  intro hs i
  induction hs, i using enrichBatches.induct fetch with
  | case1 i => simp [enrichBatches]
  | case2 h hs i ih =>
      rw [enrichBatches]
      simp only [List.length_append, processBatch_eq_map, List.length_map, ih,
        List.length_take, List.length_drop]
      omega

lemma enrichBatches_fst_getElem (fetch : ℕ → Except String (List BHotel)) :
    ∀ (hs : List GHotel) (i : ℕ), ∀ k, (hk : k < hs.length) →
      (enrichBatches fetch hs i).1[k]? =
        some (expectedEnrichment hs[k] (fetch (i + k / 10 * 10))) := by
  intro hs i
  induction hs, i using enrichBatches.induct fetch with
  | case1 i => intro k hk; simp at hk
  | case2 h hs i ih =>
      intro k hk
      rw [enrichBatches]
      simp only [processBatch_eq_map, List.getElem?_append, List.length_map,
        List.length_take]
      by_cases h10 : k < 10
      · have hmin : k < min 10 (h :: hs).length := by omega
        rw [if_pos hmin, List.getElem?_map, List.getElem?_take, if_pos h10,
          List.getElem?_eq_getElem hk]
        have h0 : k / 10 = 0 := Nat.div_eq_of_lt h10
        simp [h0]
      · have hlen10 : 10 ≤ (h :: hs).length := by omega
        have hmin : ¬ k < min 10 (h :: hs).length := by omega
        rw [if_neg hmin]
        have hk2 : k - min 10 (h :: hs).length < ((h :: hs).drop 10).length := by
          simp only [List.length_drop]
          omega
        rw [ih (k - min 10 (h :: hs).length) hk2]
        have hidx : ((h :: hs).drop 10)[k - min 10 (h :: hs).length] = (h :: hs)[k] := by
          rw [List.getElem_drop]
          congr 1
          omega
        rw [hidx]
        have harith : i + 10 + (k - min 10 (h :: hs).length) / 10 * 10 = i + k / 10 * 10 := by
          omega
        rw [harith]

/-- C2: on a cache miss, the enrichment run emits exactly one
`MatchedHotel` per discovery hotel; the record at index `k` depends only
on the pricing lookup of its own batch (the one whose slice starts at
`(k / 10) * 10`); and whenever that lookup throws, the record is
`failedOf` — `available = false`, `price = null`, with the soft error tag
— while every other batch is still processed against its own lookup
result. In particular, with batch 2 of 3 always throwing, batches 1 and
3 are still enriched with their pricing results. -/
theorem C2_partial_failure (hotels : List GHotel) (ci co : String) (g : ℤ)
    (cg : String → Option (List MatchedHotel)) (f : ℕ → Except String (List BHotel))
    (hmiss : cg (enrichCacheKey ci co g hotels) = none) :
    (enrichHotelsWithPricing hotels ci co g cg f).result.length = hotels.length ∧
    (∀ k, (hk : k < hotels.length) →
      (enrichHotelsWithPricing hotels ci co g cg f).result[k]? =
        some (expectedEnrichment hotels[k] (f (k / 10 * 10)))) ∧
    (∀ k, (hk : k < hotels.length) → ∀ e, f (k / 10 * 10) = .error e →
      (enrichHotelsWithPricing hotels ci co g cg f).result[k]? =
        some (failedOf hotels[k])) := by
  have hres : (enrichHotelsWithPricing hotels ci co g cg f).result =
      (enrichBatches f hotels 0).1 := by
    simp [enrichHotelsWithPricing, hmiss]
  refine ⟨?_, ?_, ?_⟩
  · rw [hres, enrichBatches_fst_length]
  · intro k hk
    rw [hres]
    have h := enrichBatches_fst_getElem f hotels 0 k hk
    rwa [Nat.zero_add] at h
  · intro k hk e he
    rw [hres]
    have h := enrichBatches_fst_getElem f hotels 0 k hk
    rw [Nat.zero_add] at h
    rw [h, he]
    rfl

/-- 21 concrete discovery hotels: three batches of sizes 10, 10, 1. -/
def wHotels : List GHotel :=
  (List.range 21).map fun i =>
    { id := toString i, name := "h", address := "a", rating := 0, latitude := 0, longitude := 0 }

/-- A pricing lookup that always throws for the second batch (start
index 10) and returns an empty result set for every other batch. -/
def wFetch : ℕ → Except String (List BHotel) :=
  fun i => if i = 10 then .error "boom" else .ok []

/-- C2 witness: the theorem applied to 21 hotels whose second of three
batches always throws. -/
theorem C2_partial_failure_witness :
    ((fun _ => (none : Option (List MatchedHotel))) (enrichCacheKey "ci" "co" 2 wHotels) =
      none) ∧
    ((enrichHotelsWithPricing wHotels "ci" "co" 2 (fun _ => none) wFetch).result.length =
        wHotels.length ∧
      (∀ k, (hk : k < wHotels.length) →
        (enrichHotelsWithPricing wHotels "ci" "co" 2 (fun _ => none) wFetch).result[k]? =
          some (expectedEnrichment wHotels[k] (wFetch (k / 10 * 10)))) ∧
      (∀ k, (hk : k < wHotels.length) → ∀ e, wFetch (k / 10 * 10) = .error e →
        (enrichHotelsWithPricing wHotels "ci" "co" 2 (fun _ => none) wFetch).result[k]? =
          some (failedOf wHotels[k]))) :=
  ⟨rfl, C2_partial_failure wHotels "ci" "co" 2 (fun _ => none) wFetch rfl⟩

/-! ## C1 — the match engine -/

lemma calculateMatchScore_of_not_exact (g : GHotel) (b : BHotel)
    (h : (b.name.toLower == g.name.toLower) = false) :
    calculateMatchScore g b = some (specScore g b) := by
  have hdata : ∀ u : String, u.length = u.data.length := fun _ => rfl
  have hmax : ¬ max g.name.toLower.length b.name.toLower.length = 0 := by
    intro h0
    have e1 : g.name.toLower = "" := string_length_eq_zero (by omega)
    have e2 : b.name.toLower = "" := string_length_eq_zero (by omega)
    rw [e1, e2] at h
    simp at h
  simp only [calculateMatchScore, calculateStringSimilarity, if_neg hmax, Option.map_some',
    Option.some.injEq, specScore]
  rw [← hdata, ← hdata]
  push_cast
  split_ifs with hr
  · ring
  · ring

lemma foldl_pickBest (xs : List (BHotel × ℝ)) :
    ∀ acc : BHotel × ℝ,
      (xs.foldl (fun best y => if best.2 < y.2 then y else best) acc) ∈ acc :: xs ∧
      acc.2 ≤ (xs.foldl (fun best y => if best.2 < y.2 then y else best) acc).2 ∧
      ∀ y ∈ xs, y.2 ≤ (xs.foldl (fun best y => if best.2 < y.2 then y else best) acc).2 := by
  induction xs with
  | nil => intro acc; simp
  | cons x xs ih =>
      intro acc
      simp only [List.foldl_cons]
      obtain ⟨hmem, hle, hall⟩ := ih (if acc.2 < x.2 then x else acc)
      have hacc : acc.2 ≤ (if acc.2 < x.2 then x else acc).2 := by
        split_ifs with hc
        · exact le_of_lt hc
        · exact le_refl _
      have hx : x.2 ≤ (if acc.2 < x.2 then x else acc).2 := by
        split_ifs with hc
        · exact le_refl _
        · exact le_of_not_lt hc
      refine ⟨?_, le_trans hacc hle, ?_⟩
      · rcases List.mem_cons.mp hmem with h | h
        · rw [h]
          split_ifs with hc
          · simp
          · simp
        · simp [h]
      · intro y hy
        rcases List.mem_cons.mp hy with h | h
        · rw [h]; exact le_trans hx hle
        · exact hall y h

lemma pickFirstMax_spec (l : List (BHotel × ℝ)) (hne : l ≠ []) :
    ∃ m, pickFirstMax l = some m ∧ m ∈ l ∧ ∀ y ∈ l, y.2 ≤ m.2 := by
  cases l with
  | nil => exact absurd rfl hne
  | cons x xs =>
      obtain ⟨hmem, hle, hall⟩ := foldl_pickBest xs x
      refine ⟨_, rfl, hmem, ?_⟩
      intro y hy
      rcases List.mem_cons.mp hy with h | h
      · rw [h]; exact hle
      · exact hall y h

/-- C1: with a non-empty candidate list, `findBestBookingMatch` returns
the first candidate whose lowercased name equals the discovery record's
lowercased name when one exists; otherwise every candidate's
`calculateMatchScore` equals the spec-worded weighted score
(`0.5 × nameSimilarity + 0.3 × distanceScore + 0.2 × ratingSimilarity`,
`specScore`), and there is a maximal-score candidate that is returned
exactly when its score strictly exceeds `0.7`, with `null` returned
otherwise. -/
theorem C1_find_best_booking_match (g : GHotel) (ps : List BHotel) (hne : ps ≠ []) :
    ((∃ b ∈ ps, b.name.toLower = g.name.toLower) →
        findBestBookingMatch g ps = ps.find? fun b => b.name.toLower == g.name.toLower) ∧
    ((∀ b ∈ ps, b.name.toLower ≠ g.name.toLower) →
        (∀ b ∈ ps, calculateMatchScore g b = some (specScore g b)) ∧
        ∃ b ∈ ps, (∀ c ∈ ps, specScore g c ≤ specScore g b) ∧
          (0.7 < specScore g b → findBestBookingMatch g ps = some b) ∧
          (specScore g b ≤ 0.7 → findBestBookingMatch g ps = none)) := by
  have hempty : ps.isEmpty = false := by
    cases ps
    · exact absurd rfl hne
    · rfl
  constructor
  · rintro ⟨b, hb, hname⟩
    obtain ⟨c, hc⟩ : ∃ c, ps.find? (fun b => b.name.toLower == g.name.toLower) = some c := by
      cases hf : ps.find? (fun b => b.name.toLower == g.name.toLower) with
      | none =>
          exfalso
          have := List.find?_eq_none.mp hf b hb
          simp [hname] at this
      | some c => exact ⟨c, rfl⟩
    simp only [findBestBookingMatch, hempty, Bool.false_eq_true, if_false, hc]
  · intro hnoex
    have hfind : ps.find? (fun b => b.name.toLower == g.name.toLower) = none := by
      rw [List.find?_eq_none]
      intro b hb
      simpa using hnoex b hb
    have hscores : ∀ b ∈ ps, calculateMatchScore g b = some (specScore g b) := by
      intro b hb
      exact calculateMatchScore_of_not_exact g b (by simpa using hnoex b hb)
    refine ⟨hscores, ?_⟩
    have hmapne : (ps.map fun b => (b, (calculateMatchScore g b).getD 0)) ≠ [] := by
      simp [hne]
    obtain ⟨m, hm, hmem, hall⟩ := pickFirstMax_spec _ hmapne
    obtain ⟨b, hbmem, hbeq⟩ := List.mem_map.mp hmem
    have hms : m.2 = specScore g b := by
      rw [← hbeq]
      simp [hscores b hbmem]
    have hmb : m.1 = b := by rw [← hbeq]
    refine ⟨b, hbmem, ?_, ?_, ?_⟩
    · intro c hc
      have h := hall (c, (calculateMatchScore g c).getD 0)
        (List.mem_map_of_mem _ hc)
      rw [hms] at h
      simpa [hscores c hc] using h
    · intro hgt
      simp only [findBestBookingMatch, hempty, Bool.false_eq_true, if_false, hfind, hm]
      rw [if_pos (by rw [hms]; exact hgt), hmb]
    · intro hle
      simp only [findBestBookingMatch, hempty, Bool.false_eq_true, if_false, hfind, hm]
      rw [if_neg (by rw [hms]; exact not_lt.mpr hle)]

/-- A concrete discovery record for the C1 witness. -/
def gW : GHotel :=
  { id := "g1", name := "Grand", address := "x", rating := 0, latitude := 0, longitude := 0 }

/-- A concrete pricing record whose name matches `gW` exactly. -/
def bW : BHotel :=
  { id := "bk1", name := "Grand", rating := 0, latitude := 0, longitude := 0,
    price := { amount := 10, currency := "USD" }, bookingUrl := "u" }

/-- C1 witness: the theorem applied to the concrete records `gW`, `[bW]`. -/
theorem C1_find_best_booking_match_witness :
    ([bW] ≠ ([] : List BHotel)) ∧
    (((∃ b ∈ [bW], b.name.toLower = gW.name.toLower) →
        findBestBookingMatch gW [bW] = [bW].find? fun b => b.name.toLower == gW.name.toLower) ∧
      ((∀ b ∈ [bW], b.name.toLower ≠ gW.name.toLower) →
        (∀ b ∈ [bW], calculateMatchScore gW b = some (specScore gW b)) ∧
        ∃ b ∈ [bW], (∀ c ∈ [bW], specScore gW c ≤ specScore gW b) ∧
          (0.7 < specScore gW b → findBestBookingMatch gW [bW] = some b) ∧
          (specScore gW b ≤ 0.7 → findBestBookingMatch gW [bW] = none))) :=
  ⟨List.cons_ne_nil bW [], C1_find_best_booking_match gW [bW] (List.cons_ne_nil bW [])⟩

/-! ## C3 — final ranking -/

/-- Availability rank used by the comparator: available first. -/
def availRank (h : MatchedHotel) : ℕ := if h.available then 0 else 1

/-- Price-presence rank used by the comparator: truthy amount first. -/
def priceRank (h : MatchedHotel) : ℕ := if priceAmountTruthy h then 0 else 1

/-- Tie-break measure within one price-presence class: ascending amount
for priced hotels, descending rating (i.e. ascending negated rating)
for unpriced ones. -/
def sortMeasure (h : MatchedHotel) : ℚ :=
  if priceAmountTruthy h then priceAmountOf h else -h.rating

lemma hotelComparator_le_iff (a b : MatchedHotel) :
    hotelComparator a b ≤ 0 ↔
      (availRank a < availRank b ∨ (availRank a = availRank b ∧
        (priceRank a < priceRank b ∨ (priceRank a = priceRank b ∧
          sortMeasure a ≤ sortMeasure b)))) := by
  cases ha : a.available <;> cases hb : b.available <;>
    cases hpa : priceAmountTruthy a <;> cases hpb : priceAmountTruthy b <;>
      simp [hotelComparator, availRank, priceRank, sortMeasure, ha, hb, hpa, hpb,
        sub_nonpos]

lemma hotelLE_trans (a b c : MatchedHotel) (h1 : hotelLE a b) (h2 : hotelLE b c) :
    hotelLE a c := by
  simp only [hotelLE, decide_eq_true_eq, hotelComparator_le_iff] at h1 h2 ⊢
  rcases h1 with h1 | ⟨e1, h1⟩ <;> rcases h2 with h2 | ⟨e2, h2⟩
  · left; omega
  · left; omega
  · left; omega
  · refine Or.inr ⟨by omega, ?_⟩
    rcases h1 with h1 | ⟨f1, h1⟩ <;> rcases h2 with h2 | ⟨f2, h2⟩
    · left; omega
    · left; omega
    · left; omega
    · exact Or.inr ⟨by omega, le_trans h1 h2⟩

lemma hotelLE_total (a b : MatchedHotel) : hotelLE a b || hotelLE b a := by
  simp only [hotelLE, Bool.or_eq_true, decide_eq_true_eq, hotelComparator_le_iff]
  by_cases h1 : availRank a = availRank b
  · by_cases h2 : priceRank a = priceRank b
    · rcases le_total (sortMeasure a) (sortMeasure b) with h | h
      · exact Or.inl (Or.inr ⟨h1, Or.inr ⟨h2, h⟩⟩)
      · exact Or.inr (Or.inr ⟨h1.symm, Or.inr ⟨h2.symm, h⟩⟩)
    · rcases Nat.lt_or_ge (priceRank a) (priceRank b) with h | h
      · exact Or.inl (Or.inr ⟨h1, Or.inl h⟩)
      · exact Or.inr (Or.inr ⟨h1.symm, Or.inl (by omega)⟩)
  · rcases Nat.lt_or_ge (availRank a) (availRank b) with h | h
    · exact Or.inl (Or.inl h)
    · exact Or.inr (Or.inl (by omega))

/-- The ordering the specification claims of the final list: available
before unavailable; within the same availability, ascending price amount
when both amounts are truthy; priced (truthy amount) before unpriced;
and rating descending when neither has a truthy amount. A price whose
`amount` is `0` is falsy, i.e. "without a price amount", exactly as in
the comparator's `a.price?.amount` test. -/
def C3Order (a b : MatchedHotel) : Prop :=
  (b.available = true → a.available = true) ∧
  (a.available = b.available →
    (priceAmountTruthy a = true ∧ priceAmountTruthy b = true →
      priceAmountOf a ≤ priceAmountOf b) ∧
    (priceAmountTruthy b = true → priceAmountTruthy a = true) ∧
    (priceAmountTruthy a = false ∧ priceAmountTruthy b = false → b.rating ≤ a.rating))

lemma hotelLE_imp_C3Order (a b : MatchedHotel) (h : hotelLE a b) : C3Order a b := by
  simp only [hotelLE, decide_eq_true_eq, hotelComparator_le_iff] at h
  constructor
  · intro hb
    have hle : availRank a ≤ availRank b := by
      rcases h with h | ⟨e, _⟩ <;> omega
    simp only [availRank, hb, if_true] at hle
    by_contra hna
    simp only [Bool.not_eq_true] at hna
    simp [hna] at hle
  · intro heq
    have he : availRank a = availRank b := by simp [availRank, heq]
    have h2 : priceRank a < priceRank b ∨ (priceRank a = priceRank b ∧
        sortMeasure a ≤ sortMeasure b) := by
      rcases h with h | ⟨_, h⟩
      · omega
      · exact h
    refine ⟨?_, ?_, ?_⟩
    · rintro ⟨hpa, hpb⟩
      have : sortMeasure a ≤ sortMeasure b := by
        rcases h2 with h2 | ⟨_, h2⟩
        · simp [priceRank, hpa, hpb] at h2
        · exact h2
      simpa [sortMeasure, hpa, hpb] using this
    · intro hpb
      have hle : priceRank a ≤ priceRank b := by rcases h2 with h2 | ⟨e, _⟩ <;> omega
      simp only [priceRank, hpb, if_true] at hle
      by_contra hna
      simp only [Bool.not_eq_true] at hna
      simp [hna] at hle
    · rintro ⟨hpa, hpb⟩
      have : sortMeasure a ≤ sortMeasure b := by
        rcases h2 with h2 | ⟨_, h2⟩
        · simp [priceRank, hpa, hpb] at h2
        · exact h2
      simp only [sortMeasure, hpa, hpb, Bool.false_eq_true, if_false] at this
      linarith

lemma sortHotels_pairwise (l : List MatchedHotel) : (sortHotels l).Pairwise C3Order := by
  have hp := List.sorted_mergeSort hotelLE_trans hotelLE_total l
  exact hp.imp fun hab => hotelLE_imp_C3Order _ _ hab

lemma sortHotels_perm (l : List MatchedHotel) : List.Perm (sortHotels l) l :=
  List.mergeSort_perm l hotelLE

/-- C3: the sort applied by `searchHotels` orders any earlier element
against any later one by: available before unavailable; ascending price
amount when both have a truthy amount; a truthy price amount before
none; and rating descending for the remaining ties — and it permutes
the enriched list. Consequently every successful `searchHotels` result
list is pairwise ordered by that relation. -/
theorem C3_final_ranking :
    (∀ l : List MatchedHotel,
        (sortHotels l).Pairwise C3Order ∧ List.Perm (sortHotels l) l) ∧
    (∀ (lat lng : Option ℚ) (ci co : Option String) (gz : Option ℤ)
        (resp : Except (String × ℕ) (List Place)) (cg : String → Option (List MatchedHotel))
        (f : ℕ → Except String (List BHotel)),
        match searchHotels lat lng ci co gz resp cg f with
        | .ok res => res.hotels.Pairwise C3Order
        | .error _ => True) := by
  refine ⟨fun l => ⟨sortHotels_pairwise l, sortHotels_perm l⟩, ?_⟩
  intro lat lng ci co gz resp cg f
  simp only [searchHotels]
  split_ifs <;> try trivial
  cases resp with
  | error e => trivial
  | ok places => exact sortHotels_pairwise _

/-! ## C7 — duplicate dedup keys are not collapsed -/

/-- A Google Places result named "Grand Hotel" at "1 Main St". -/
def dupPlace1 : Place :=
  { place_id := "p1", name := "Grand Hotel", vicinity := "1 Main St", rating := none,
    lat := 0, lng := 0 }

/-- A second, distinct Google Places result with the same name and
address as `dupPlace1`. -/
def dupPlace2 : Place :=
  { place_id := "p2", name := "Grand Hotel", vicinity := "1 Main St", rating := none,
    lat := 0, lng := 0 }

/-- The result entry produced for `dupPlace1` when no pricing match
exists. -/
def c7Hotel1 : MatchedHotel := unmatchedOf (placeToHotel dupPlace1)

/-- The result entry produced for `dupPlace2` when no pricing match
exists. -/
def c7Hotel2 : MatchedHotel := unmatchedOf (placeToHotel dupPlace2)

lemma c7_enrichBatches :
    enrichBatches (fun _ => .ok []) [placeToHotel dupPlace1, placeToHotel dupPlace2] 0 =
      ([c7Hotel1, c7Hotel2], [0]) := by
  rw [enrichBatches]
  norm_num [processBatch, findBestBookingMatch, c7Hotel1, c7Hotel2]
  rw [enrichBatches]
  exact ⟨rfl, rfl⟩

lemma c7_sortHotels : sortHotels [c7Hotel1, c7Hotel2] = [c7Hotel1, c7Hotel2] := by
  simp [sortHotels, List.mergeSort, hotelLE, hotelComparator, priceAmountTruthy,
    c7Hotel1, c7Hotel2, unmatchedOf, placeToHotel, dupPlace1, dupPlace2]

lemma c7_enrich :
    enrichHotelsWithPricing [placeToHotel dupPlace1, placeToHotel dupPlace2] "ci" "co" 2
        (fun _ => none) (fun _ => .ok []) =
      { result := [c7Hotel1, c7Hotel2], fetchCalls := [0],
        cacheWrites := [(enrichCacheKey "ci" "co" 2
          [placeToHotel dupPlace1, placeToHotel dupPlace2], [c7Hotel1, c7Hotel2], 1800)] } := by
  simp [enrichHotelsWithPricing, c7_enrichBatches]

/-- C7 counterexample: two distinct Google Places results with the same
name and address both survive to the result list — `searchHotels`
performs no dedup — so the returned list violates the claimed
no-two-equal-dedup-keys invariant. -/
theorem C7_counterexample :
    searchHotels (some 1) (some 1) (some "ci") (some "co") (some 2)
        (.ok [dupPlace1, dupPlace2]) (fun _ => none) (fun _ => .ok []) =
      .ok { hotels := [c7Hotel1, c7Hotel2],
            metadata := { total := 2, available := 0, unavailable := 2, withPricing := 0 } } ∧
    dedupKey c7Hotel1 = dedupKey c7Hotel2 ∧
    ¬ List.Pairwise (fun a b => dedupKey a ≠ dedupKey b) [c7Hotel1, c7Hotel2] := by
  refine ⟨?_, rfl, ?_⟩
  · simp only [searchHotels, List.map_cons, List.map_nil]
    norm_num [jsTruthyNum, jsTruthyStr, jsGuestCount, c7_enrich, c7_sortHotels]
    simp [c7Hotel1, c7Hotel2, unmatchedOf, placeToHotel]
  · intro hpw
    have h := (List.pairwise_cons.mp hpw).1 c7Hotel2 (by simp)
    exact h rfl

/-- C7 (amended): `searchHotels` performs no dedup at all: on a cache
miss every discovery record yields exactly one entry of the result list
(the length is preserved), including records whose dedup key
`lowercase(name) + "_" + lowercase(address)` coincides with another's. -/
theorem C7_no_dedup (lat lng : Option ℚ) (ci co : Option String) (gz : Option ℤ)
    (places : List Place) (cg : String → Option (List MatchedHotel))
    (f : ℕ → Except String (List BHotel))
    (hmiss : cg (enrichCacheKey (ci.getD "") (co.getD "") (jsGuestCount gz)
      (places.map placeToHotel)) = none) :
    ∀ res, searchHotels lat lng ci co gz (.ok places) cg f = .ok res →
      res.hotels.length = places.length := by
  intro res hres
  simp only [searchHotels] at hres
  split_ifs at hres
  injection hres with h
  subst h
  have hr : (enrichHotelsWithPricing (places.map placeToHotel) (ci.getD "") (co.getD "")
      (jsGuestCount gz) cg f).result = (enrichBatches f (places.map placeToHotel) 0).1 := by
    simp [enrichHotelsWithPricing, hmiss]
  show (sortHotels _).length = places.length
  rw [(sortHotels_perm _).length_eq, hr, enrichBatches_fst_length, List.length_map]

/-- C7 witness: the amended theorem applied to the duplicate-key input
of the counterexample. -/
theorem C7_no_dedup_witness :
    ((fun _ => (none : Option (List MatchedHotel)))
        (enrichCacheKey ((some "ci").getD "") ((some "co").getD "") (jsGuestCount (some 2))
          ([dupPlace1, dupPlace2].map placeToHotel)) = none) ∧
    (∀ res, searchHotels (some 1) (some 1) (some "ci") (some "co") (some 2)
        (.ok [dupPlace1, dupPlace2]) (fun _ => none) (fun _ => .ok []) = .ok res →
      res.hotels.length = [dupPlace1, dupPlace2].length) :=
  ⟨rfl, C7_no_dedup (some 1) (some 1) (some "ci") (some "co") (some 2)
    [dupPlace1, dupPlace2] (fun _ => none) (fun _ => .ok []) rfl⟩
